import Mathlib

/-!
Shallow embedding of the curatedMetagenomicDataETL repository (three Python
programs driving a managed warehouse catalog API):

* `create_external_tables.py` — static table registry and external-table
  provisioning (delimiter, compression, header-skip, schema, source URIs).
* `create_src_stg_tables.py` — source views (create-if-absent) and staging
  tables (full-refresh query jobs with clustering).
* `gather_table_metadata.py` — metadata harvest and summary aggregation.

Pure configuration and string manipulation are translated directly.  Calls
into the external catalog service are modelled by explicit oracle functions
(`Except String`-valued where the Python call can raise) and, for the
provisioners, by an explicit catalog state `Catalog := String → Option CatVal`
that the create operations transform.  Machine floats appear only in
`size_gb`; it is modelled over `Rat` (comment at `round2` below).
-/

namespace ETL

/-! ### Shared configuration constants (`PROJECT_ID`, `DATASET_ID`, bucket) -/

def PROJECT_ID : String := "curatedmetagenomicdata"

def DATASET_ID : String := "curatedmetagenomicsdata"

def GCS_BUCKET : String := "gs://cmgd-data/results/cMDv4"

/-- Fully qualified object name `f"{PROJECT_ID}.{DATASET_ID}.{name}"` as built
by all three programs. -/
def qualifyName (name : String) : String :=
  PROJECT_ID ++ "." ++ DATASET_ID ++ "." ++ name

/-! ### Generic helpers used by the harvester embedding -/

/-- Association-list lookup (model of Python `dict` access keyed by strings;
first binding wins, matching insertion-order dict semantics when keys are
unique). -/
def lookupKV {α : Type} : List (String × α) → String → Option α
  | [], _ => none
  | (k, v) :: rest, key => if k = key then some v else lookupKV rest key

/-- Model of Python `d[k] = d.get(k, 0) + 1` on an insertion-ordered dict. -/
def bump : List (String × Nat) → String → List (String × Nat)
  | [], key => [(key, 1)]
  | (k, v) :: rest, key =>
    if k = key then (k, v + 1) :: rest else (k, v) :: bump rest key

/-- Count stored in an insertion-ordered counter dict (0 when absent). -/
def getCount (l : List (String × Nat)) (key : String) : Nat :=
  (lookupKV l key).getD 0

/-- Model of Python `s.split("_")[0] + "_"` (gather_table_metadata.py line
147): the longest prefix of the name free of underscores, then an
underscore. -/
def prefixKey (s : String) : String :=
  String.mk (s.toList.takeWhile (fun c => c ≠ '_')) ++ "_"

/-- Model of Python `s.split(".")[-1]` (gather_table_metadata.py line 99):
the last dot-separated segment, computed by resetting an accumulator at
every dot. -/
def lastDot (s : String) : String :=
  String.mk (s.toList.foldl (fun acc c => if c = '.' then [] else acc ++ [c]) [])

/-- Code-point lexicographic order on char lists (Python's `str` order). -/
def lexLe : List Char → List Char → Bool
  | [], _ => true
  | _ :: _, [] => false
  | a :: as, b :: bs =>
    if a.toNat < b.toNat then true
    else if b.toNat < a.toNat then false
    else lexLe as bs

/-- Code-point lexicographic order on strings. -/
def strLe (a b : String) : Bool := lexLe a.toList b.toList

/-- Insertion step for the lexicographic sort used to model Python
`sorted(tables, key=lambda t: t.table_id)` (line 134). -/
def insertSorted (x : String) : List String → List String
  | [] => [x]
  | y :: ys => if strLe x y then x :: y :: ys else y :: insertSorted x ys

/-- Stable lexicographic sort of the listed table names. -/
def sortNames (l : List String) : List String :=
  l.foldr insertSorted []

/-- Model of `round(x, 2)` applied to the GB size.  The Python code rounds a
binary float with round-half-even; the claims checked here never depend on
the tie-breaking rule, so the model rounds the exact rational half-up. -/
def round2 (q : Rat) : Rat :=
  (⌊q * 100 + 1 / 2⌋ : Int) / 100

/-! ### Table registry (`create_external_tables.py` lines 19–74) -/

/-- One field of a BigQuery schema, as built by
`bigquery.SchemaField(name, type, mode)` (description defaults to `None`). -/
structure BQSchemaField where
  name : String
  field_type : String
  mode : String
  description : Option String := none
deriving DecidableEq, Repr

/-- One entry of `TABLE_DEFINITIONS`: glob path, header-skip count, schema. -/
structure TableDefinition where
  path : String
  skip_rows : Nat
  schema : List BQSchemaField
deriving DecidableEq, Repr

def d_ext_marker_abundance : TableDefinition :=
  { path := GCS_BUCKET ++ "/*/metaphlan_markers/marker_abundance.tsv.gz"
    skip_rows := 4
    schema :=
      [ { name := "marker_id", field_type := "STRING", mode := "NULLABLE" },
        { name := "abundance", field_type := "FLOAT", mode := "NULLABLE" } ] }

def d_ext_marker_presence : TableDefinition :=
  { path := GCS_BUCKET ++ "/*/metaphlan_markers/marker_presence.tsv.gz"
    skip_rows := 4
    schema :=
      [ { name := "marker_id", field_type := "STRING", mode := "NULLABLE" },
        { name := "presence", field_type := "INTEGER", mode := "NULLABLE" } ] }

def d_ext_marker_rel_ab_w_read_stats : TableDefinition :=
  { path := GCS_BUCKET ++ "/*/metaphlan_markers/marker_rel_ab_w_read_stats.tsv.gz"
    skip_rows := 6
    schema :=
      [ { name := "clade_name", field_type := "STRING", mode := "NULLABLE" },
        { name := "clade_taxid", field_type := "STRING", mode := "NULLABLE" },
        { name := "relative_abundance", field_type := "STRING", mode := "NULLABLE" },
        { name := "coverage", field_type := "STRING", mode := "NULLABLE" },
        { name := "estimated_reads", field_type := "STRING", mode := "NULLABLE" } ] }

def d_ext_metaphlan_unknown_list : TableDefinition :=
  { path := GCS_BUCKET ++ "/*/metaphlan_lists/metaphlan_unknown_list.tsv.gz"
    skip_rows := 5
    schema :=
      [ { name := "clade_name", field_type := "STRING", mode := "NULLABLE" },
        { name := "ncbi_tax_id", field_type := "STRING", mode := "NULLABLE" },
        { name := "relative_abundance", field_type := "STRING", mode := "NULLABLE" } ] }

def d_ext_metaphlan_viruses_list : TableDefinition :=
  { path := GCS_BUCKET ++ "/*/metaphlan_lists/metaphlan_viruses_list.tsv.gz"
    skip_rows := 4
    schema :=
      [ { name := "mv_group_cluster", field_type := "STRING", mode := "NULLABLE" },
        { name := "genome_name", field_type := "STRING", mode := "NULLABLE" },
        { name := "length", field_type := "INTEGER", mode := "NULLABLE" },
        { name := "breadth_of_coverage", field_type := "FLOAT", mode := "NULLABLE" },
        { name := "mapping_reads_count", field_type := "INTEGER", mode := "NULLABLE" },
        { name := "rpkm", field_type := "FLOAT", mode := "NULLABLE" },
        { name := "depth_of_coverage_mean", field_type := "FLOAT", mode := "NULLABLE" },
        { name := "depth_of_coverage_median", field_type := "FLOAT", mode := "NULLABLE" },
        { name := "mv_group_type", field_type := "STRING", mode := "NULLABLE" },
        { name := "assigned_taxonomy", field_type := "STRING", mode := "NULLABLE" },
        { name := "first_genome_in_cluster", field_type := "STRING", mode := "NULLABLE" },
        { name := "other_genomes_in_cluster", field_type := "STRING", mode := "NULLABLE" } ] }

def TABLE_DEFINITIONS : List (String × TableDefinition) :=
  [ ("ext_marker_abundance", d_ext_marker_abundance),
    ("ext_marker_presence", d_ext_marker_presence),
    ("ext_marker_rel_ab_w_read_stats", d_ext_marker_rel_ab_w_read_stats),
    ("ext_metaphlan_unknown_list", d_ext_metaphlan_unknown_list),
    ("ext_metaphlan_viruses_list", d_ext_metaphlan_viruses_list) ]

/-! ### External table configuration (`create_external_tables.py` lines 77–101) -/

/-- CSV options sub-object (`external_config.options`). -/
structure CsvOptions where
  skip_leading_rows : Nat
  field_delimiter : String
deriving DecidableEq, Repr

/-- The `bigquery.ExternalConfig("CSV")` object as populated in
`create_external_table`. -/
structure ExternalConfig where
  source_format : String
  source_uris : List String
  compression : String
  options : CsvOptions
  schema : List BQSchemaField
deriving DecidableEq, Repr

/-- Lines 83–88: construction of the external configuration from one
`TABLE_DEFINITIONS` entry. -/
def mkExternalConfig (d : TableDefinition) : ExternalConfig :=
  { source_format := "CSV"
    source_uris := [d.path]
    compression := "GZIP"
    options := { skip_leading_rows := d.skip_rows, field_delimiter := "\t" }
    schema := d.schema }

/-- Lines 77–101: per-definition creation call.  `createTable` is the oracle
for `client.create_table(table, exists_ok=True)`; any raised exception is
caught and turned into a `False` result plus the printed failure line. -/
def create_external_table (createTable : String → ExternalConfig → Except String Unit)
    (table_name : String) (d : TableDefinition) : Bool × String :=
  let table_id := qualifyName table_name
  match createTable table_id (mkExternalConfig d) with
  | .ok _ => (true, "✓ Created external table: " ++ table_id)
  | .error e => (false, "✗ Failed to create " ++ table_id ++ ": " ++ e)

/-- Outcome of `create_external_tables.main`: the printed lines and, unless
the program returned early at the dataset check, the success tally. -/
structure CetOutcome where
  printed : List String
  success_count : Option Nat
deriving DecidableEq, Repr

/-- Lines 129–156: the driver.  `getDataset` is the oracle for
`client.get_dataset`; on error the program prints remediation text and
returns early (no exception escapes).  Otherwise every registry entry is
processed, failures included. -/
def cet_main (getDataset : String → Except String Unit)
    (createTable : String → ExternalConfig → Except String Unit) : CetOutcome :=
  let dataset_id := PROJECT_ID ++ "." ++ DATASET_ID
  match getDataset dataset_id with
  | .error _ =>
    { printed :=
        [ "✗ Dataset " ++ dataset_id ++ " not found. Create it first with:",
          "  bq mk --dataset --location=US " ++ dataset_id ]
      success_count := none }
  | .ok _ =>
    let results := TABLE_DEFINITIONS.map (fun p => create_external_table createTable p.1 p.2)
    { printed := results.map (fun r => r.2)
      success_count := some (results.countP (fun r => r.1)) }

/-! ### Source view and staging SQL (`create_src_stg_tables.py` lines 18–126) -/

/-- Replace every occurrence of `pat` (scanning left to right, not
rescanning replaced text), with fuel bounding the recursion. -/
def replaceCharsAux (pat rep : List Char) : Nat → List Char → List Char
  | 0, l => l
  | _, [] => []
  | fuel + 1, c :: rest =>
    if pat.isPrefixOf (c :: rest) ∧ pat ≠ [] then
      rep ++ replaceCharsAux pat rep fuel ((c :: rest).drop pat.length)
    else
      c :: replaceCharsAux pat rep fuel rest

/-- Python `s.replace(pat, rep)` on non-empty patterns. -/
def pyReplace (s pat rep : String) : String :=
  String.mk (replaceCharsAux pat.toList rep.toList s.toList.length s.toList)

/-- Python `query.format(project=PROJECT_ID, dataset=DATASET_ID)` as used by
both provisioner functions (the queries contain no other placeholders). -/
def fmtQuery (q : String) : String :=
  pyReplace (pyReplace q "{project}" PROJECT_ID) "{dataset}" DATASET_ID

def q_src_marker_abundance : String :=
"
        SELECT
            REGEXP_EXTRACT(_FILE_NAME, r'/cMDv4/([^/]+)/') as sample_id,
            marker_id,
            abundance
        FROM `{project}.{dataset}.ext_marker_abundance`
    "

def SOURCE_VIEWS : List (String × String) :=
  [ ("src_marker_abundance", q_src_marker_abundance),
    ("src_marker_presence",
"
        SELECT
            REGEXP_EXTRACT(_FILE_NAME, r'/cMDv4/([^/]+)/') as sample_id,
            marker_id,
            presence
        FROM `{project}.{dataset}.ext_marker_presence`
    "),
    ("src_marker_rel_ab_w_read_stats",
"
        SELECT
            REGEXP_EXTRACT(_FILE_NAME, r'/cMDv4/([^/]+)/') as sample_id,
            clade_name,
            clade_taxid,
            relative_abundance,
            coverage,
            estimated_reads
        FROM `{project}.{dataset}.ext_marker_rel_ab_w_read_stats`
    "),
    ("src_metaphlan_unknown_list",
"
        SELECT
            REGEXP_EXTRACT(_FILE_NAME, r'/cMDv4/([^/]+)/') as sample_id,
            clade_name,
            ncbi_tax_id,
            relative_abundance
        FROM `{project}.{dataset}.ext_metaphlan_unknown_list`
    "),
    ("src_metaphlan_viruses_list",
"
        SELECT
            REGEXP_EXTRACT(_FILE_NAME, r'/cMDv4/([^/]+)/') as sample_id,
            mv_group_cluster,
            genome_name,
            length,
            breadth_of_coverage,
            mapping_reads_count,
            rpkm,
            depth_of_coverage_mean,
            depth_of_coverage_median,
            mv_group_type,
            assigned_taxonomy,
            first_genome_in_cluster,
            other_genomes_in_cluster
        FROM `{project}.{dataset}.ext_metaphlan_viruses_list`
    ") ]

def STAGING_QUERIES : List (String × String) :=
  [ ("stg_marker_abundance",
"
        SELECT
            sample_id,
            marker_id,
            SAFE_CAST(abundance AS FLOAT64) as abundance
        FROM `{project}.{dataset}.src_marker_abundance`
        WHERE sample_id IS NOT NULL
    "),
    ("stg_marker_presence",
"
        SELECT
            sample_id,
            marker_id,
            SAFE_CAST(presence AS INT64) as presence
        FROM `{project}.{dataset}.src_marker_presence`
        WHERE sample_id IS NOT NULL
    "),
    ("stg_marker_rel_ab_w_read_stats",
"
        SELECT
            sample_id,
            clade_name,
            clade_taxid,
            SAFE_CAST(relative_abundance AS FLOAT64) as relative_abundance,
            SAFE_CAST(NULLIF(coverage, '-') AS FLOAT64) as coverage,
            SAFE_CAST(estimated_reads AS INT64) as estimated_reads
        FROM `{project}.{dataset}.src_marker_rel_ab_w_read_stats`
        WHERE sample_id IS NOT NULL
    "),
    ("stg_metaphlan_unknown_list",
"
        SELECT
            sample_id,
            clade_name,
            ncbi_tax_id,
            SAFE_CAST(relative_abundance AS FLOAT64) as relative_abundance
        FROM `{project}.{dataset}.src_metaphlan_unknown_list`
        WHERE sample_id IS NOT NULL
    "),
    ("stg_metaphlan_viruses_list",
"
        SELECT
            sample_id,
            mv_group_cluster,
            genome_name,
            SAFE_CAST(length AS INT64) as length,
            SAFE_CAST(breadth_of_coverage AS FLOAT64) as breadth_of_coverage,
            SAFE_CAST(mapping_reads_count AS INT64) as mapping_reads_count,
            SAFE_CAST(rpkm AS FLOAT64) as rpkm,
            SAFE_CAST(depth_of_coverage_mean AS FLOAT64) as depth_of_coverage_mean,
            SAFE_CAST(depth_of_coverage_median AS FLOAT64) as depth_of_coverage_median,
            mv_group_type,
            assigned_taxonomy,
            first_genome_in_cluster,
            other_genomes_in_cluster
        FROM `{project}.{dataset}.src_metaphlan_viruses_list`
        WHERE sample_id IS NOT NULL
    ") ]

/-! ### Semantics of the staging SQL

The SQL strings above are executed by the external warehouse.  To reason
about what materialization does, each staging query is also embedded as a
small AST (`StagingSelect`, one per `STAGING_QUERIES` entry, transcribed
clause by clause from the SQL text) together with an evaluator giving the
warehouse's documented semantics: `SAFE_CAST` yields NULL on conversion
failure, `NULLIF(x, '-')` maps the sentinel to NULL, and the `WHERE` clause
filters rows. -/

/-- A warehouse scalar value. -/
inductive SqlVal
  | vStr (s : String)
  | vInt (i : Int)
  | vFloat (q : Rat)
deriving DecidableEq, Repr

/-- A cell: NULL is `none`. -/
abbrev SqlCell := Option SqlVal

/-- A row: ordered column-name/value bindings. -/
abbrev SqlRow := List (String × SqlCell)

def digitsToNat (l : List Char) : Nat :=
  l.foldl (fun n c => n * 10 + (c.toNat - 48)) 0

def allDigits (l : List Char) : Bool :=
  l.all (fun c => c.isDigit)

/-- Exponent part of a FLOAT64 literal (`e12`, `e+3`, `e-4`). -/
def parseExp (l : List Char) : Option Rat :=
  match l with
  | '+' :: d => if d ≠ [] ∧ allDigits d then some ((10 : Rat) ^ digitsToNat d) else none
  | '-' :: d => if d ≠ [] ∧ allDigits d then some (1 / (10 : Rat) ^ digitsToNat d) else none
  | d => if d ≠ [] ∧ allDigits d then some ((10 : Rat) ^ digitsToNat d) else none

/-- Unsigned decimal FLOAT64 literal: digits, optional fraction, optional
exponent.  Anything else fails (yielding NULL under `SAFE_CAST`). -/
def parseFloatCore (l : List Char) : Option Rat :=
  let ip := l.takeWhile (fun c => c.isDigit)
  let rest := l.dropWhile (fun c => c.isDigit)
  match rest with
  | [] => if ip.isEmpty then none else some ((digitsToNat ip : Nat) : Rat)
  | '.' :: rest2 =>
    let fp := rest2.takeWhile (fun c => c.isDigit)
    let rest3 := rest2.dropWhile (fun c => c.isDigit)
    if ip.isEmpty ∧ fp.isEmpty then none
    else
      let base : Rat :=
        ((digitsToNat ip : Nat) : Rat) + ((digitsToNat fp : Nat) : Rat) / ((10 : Rat) ^ fp.length)
      match rest3 with
      | [] => some base
      | 'e' :: e => (parseExp e).map (fun x => base * x)
      | 'E' :: e => (parseExp e).map (fun x => base * x)
      | _ => none
  | 'e' :: e =>
    if ip.isEmpty then none else (parseExp e).map (fun x => ((digitsToNat ip : Nat) : Rat) * x)
  | 'E' :: e =>
    if ip.isEmpty then none else (parseExp e).map (fun x => ((digitsToNat ip : Nat) : Rat) * x)
  | _ => none

/-- FLOAT64 literal with optional sign. -/
def parseFloat (s : String) : Option Rat :=
  match s.toList with
  | '-' :: l => (parseFloatCore l).map Neg.neg
  | '+' :: l => parseFloatCore l
  | l => parseFloatCore l

/-- `SAFE_CAST(x AS FLOAT64)`: NULL stays NULL, unparsable strings become
NULL, numeric values convert. -/
def safeCastFloat (c : SqlCell) : SqlCell :=
  match c with
  | none => none
  | some (.vStr s) => (parseFloat s).map .vFloat
  | some (.vInt i) => some (.vFloat (i : Rat))
  | some (.vFloat q) => some (.vFloat q)

/-- `SAFE_CAST(x AS INT64)`: NULL stays NULL, non-integer strings become
NULL, integers pass, floats round to the nearest integer. -/
def safeCastInt (c : SqlCell) : SqlCell :=
  match c with
  | none => none
  | some (.vStr s) => (s.toInt?).map .vInt
  | some (.vInt i) => some (.vInt i)
  | some (.vFloat q) => some (.vInt (round q))

/-- Select-list expression forms appearing in the staging queries. -/
inductive SqlExpr
  | col (name : String)
  | nullifLit (e : SqlExpr) (lit : String)
  | castFloat64 (e : SqlExpr)
  | castInt64 (e : SqlExpr)
deriving DecidableEq, Repr

def evalExpr (r : SqlRow) : SqlExpr → SqlCell
  | .col n => (lookupKV r n).getD none
  | .nullifLit e lit =>
    match evalExpr r e with
    | some (.vStr s) => if s = lit then none else some (.vStr s)
    | v => v
  | .castFloat64 e => safeCastFloat (evalExpr r e)
  | .castInt64 e => safeCastInt (evalExpr r e)

/-- One staging SELECT: output columns, source view, and the optional
`WHERE <col> IS NOT NULL` filter. -/
structure StagingSelect where
  selects : List (String × SqlExpr)
  fromView : String
  whereNotNullCol : Option String
deriving DecidableEq, Repr

def rowSatisfies (w : Option String) (r : SqlRow) : Bool :=
  match w with
  | none => true
  | some c => ((lookupKV r c).getD none).isSome

def projectRow (sel : List (String × SqlExpr)) (r : SqlRow) : SqlRow :=
  sel.map (fun p => (p.1, evalExpr r p.2))

/-- Result set of a staging SELECT over the source view's rows. -/
def evalStaging (q : StagingSelect) (rows : List SqlRow) : List SqlRow :=
  (rows.filter (rowSatisfies q.whereNotNullCol)).map (projectRow q.selects)

def sel_stg_marker_abundance : StagingSelect :=
  { selects :=
      [ ("sample_id", .col "sample_id"),
        ("marker_id", .col "marker_id"),
        ("abundance", .castFloat64 (.col "abundance")) ]
    fromView := "src_marker_abundance"
    whereNotNullCol := some "sample_id" }

def sel_stg_marker_presence : StagingSelect :=
  { selects :=
      [ ("sample_id", .col "sample_id"),
        ("marker_id", .col "marker_id"),
        ("presence", .castInt64 (.col "presence")) ]
    fromView := "src_marker_presence"
    whereNotNullCol := some "sample_id" }

def sel_stg_marker_rel_ab_w_read_stats : StagingSelect :=
  { selects :=
      [ ("sample_id", .col "sample_id"),
        ("clade_name", .col "clade_name"),
        ("clade_taxid", .col "clade_taxid"),
        ("relative_abundance", .castFloat64 (.col "relative_abundance")),
        ("coverage", .castFloat64 (.nullifLit (.col "coverage") "-")),
        ("estimated_reads", .castInt64 (.col "estimated_reads")) ]
    fromView := "src_marker_rel_ab_w_read_stats"
    whereNotNullCol := some "sample_id" }

def sel_stg_metaphlan_unknown_list : StagingSelect :=
  { selects :=
      [ ("sample_id", .col "sample_id"),
        ("clade_name", .col "clade_name"),
        ("ncbi_tax_id", .col "ncbi_tax_id"),
        ("relative_abundance", .castFloat64 (.col "relative_abundance")) ]
    fromView := "src_metaphlan_unknown_list"
    whereNotNullCol := some "sample_id" }

def sel_stg_metaphlan_viruses_list : StagingSelect :=
  { selects :=
      [ ("sample_id", .col "sample_id"),
        ("mv_group_cluster", .col "mv_group_cluster"),
        ("genome_name", .col "genome_name"),
        ("length", .castInt64 (.col "length")),
        ("breadth_of_coverage", .castFloat64 (.col "breadth_of_coverage")),
        ("mapping_reads_count", .castInt64 (.col "mapping_reads_count")),
        ("rpkm", .castFloat64 (.col "rpkm")),
        ("depth_of_coverage_mean", .castFloat64 (.col "depth_of_coverage_mean")),
        ("depth_of_coverage_median", .castFloat64 (.col "depth_of_coverage_median")),
        ("mv_group_type", .col "mv_group_type"),
        ("assigned_taxonomy", .col "assigned_taxonomy"),
        ("first_genome_in_cluster", .col "first_genome_in_cluster"),
        ("other_genomes_in_cluster", .col "other_genomes_in_cluster") ]
    fromView := "src_metaphlan_viruses_list"
    whereNotNullCol := some "sample_id" }

/-- The five staging queries of `STAGING_QUERIES`, transcribed as ASTs. -/
def STAGING_SELECTS : List (String × StagingSelect) :=
  [ ("stg_marker_abundance", sel_stg_marker_abundance),
    ("stg_marker_presence", sel_stg_marker_presence),
    ("stg_marker_rel_ab_w_read_stats", sel_stg_marker_rel_ab_w_read_stats),
    ("stg_metaphlan_unknown_list", sel_stg_metaphlan_unknown_list),
    ("stg_metaphlan_viruses_list", sel_stg_metaphlan_viruses_list) ]

/-! ### Catalog state and the View/Staging Provisioner
(`create_src_stg_tables.py` lines 129–226) -/

/-- A catalog object relevant to the provisioner: a view (body text) or a
materialized table (row content plus clustering fields). -/
inductive CatVal
  | viewObj (q : String)
  | stgObj (rows : List SqlRow) (clustering : List String)
deriving DecidableEq, Repr

/-- The namespace's content: object name to object. -/
def Catalog : Type := String → Option CatVal

/-- Effect of a successful create/write call on the catalog. -/
def setVal (c : Catalog) (k : String) (v : CatVal) : Catalog :=
  fun k' => if k' = k then some v else c k'

/-- Lines 129–144: `create_view`.  `client.create_table(view, exists_ok=True)`
creates the view when absent and leaves an existing object untouched (the
exists_ok flag suppresses the conflict error; it performs no update). -/
def create_view (cat : Catalog) (view_name : String) (query : String) : Catalog × Bool :=
  let view_id := qualifyName view_name
  if (cat view_id).isSome then (cat, true)
  else (setVal cat view_id (.viewObj (fmtQuery query)), true)

/-- The `bigquery.QueryJobConfig` of lines 153–157. -/
structure QueryJobConfig where
  destination : String
  write_disposition : String
  clustering_fields : List String
deriving DecidableEq, Repr

def mkStagingJobConfig (table_name : String) : QueryJobConfig :=
  { destination := qualifyName table_name
    write_disposition := "WRITE_TRUNCATE"
    clustering_fields := ["sample_id"] }

/-- Lines 147–172: `create_staging_table`.  `src` gives the rows the source
view produces from the current external data; `queryOk` models whether the
materialization job succeeds (on success the WRITE_TRUNCATE job replaces the
destination before the function continues), and `getTableOk` models whether
the subsequent `client.get_table` read-back succeeds.  Either failure is
caught and reported as `False`. -/
def create_staging_table (cat : Catalog) (src : String → List SqlRow)
    (table_name : String) (sel : StagingSelect)
    (queryOk : Bool) (getTableOk : Bool) : Catalog × Bool :=
  let cfg := mkStagingJobConfig table_name
  if queryOk then
    let cat' := setVal cat cfg.destination
      (.stgObj (evalStaging sel (src sel.fromView)) cfg.clustering_fields)
    (cat', getTableOk)
  else (cat, false)

/-- Step 1 of `main`: create all source views (success path of the API). -/
def runViews (cat : Catalog) : Catalog :=
  SOURCE_VIEWS.foldl (fun c p => (create_view c p.1 p.2).1) cat

/-- Step 2 of `main`: materialize all staging tables (success path). -/
def runStaging (cat : Catalog) (src : String → List SqlRow) : Catalog :=
  STAGING_SELECTS.foldl (fun c p => (create_staging_table c src p.1 p.2 true true).1) cat

/-- One full successful run of `create_src_stg_tables.main` over the catalog. -/
def runProvisioner (cat : Catalog) (src : String → List SqlRow) : Catalog :=
  runStaging (runViews cat) src

/-! ### Metadata harvester (`gather_table_metadata.py`) -/

/-- The table object returned by `client.get_table`, with the attributes the
harvester reads.  For a fetched object the API reports `num_rows` and
`num_bytes` as numbers, a view's defining query as text, and an external
table's configuration when one is attached. -/
structure BQTable where
  project : String
  dataset_id : String
  table_id : String
  table_type : String
  created : Option String
  modified : Option String
  schema : List BQSchemaField
  num_rows : Nat
  num_bytes : Nat
  clustering_fields : List String
  view_query : String
  external_data_configuration : Option ExternalConfig
  labels : List (String × String)
deriving DecidableEq, Repr

/-- The `external_config` sub-dict emitted for external tables (lines 79–89). -/
structure ExtConfigMeta where
  source_format : String
  source_uris : List String
  num_source_uris : Nat
  compression : String
  csv_options : Option CsvOptions
deriving DecidableEq, Repr

/-- One emitted schema entry (lines 42–50).  The JSON key `type` is rendered
as `ftype` here. -/
structure SchemaFieldMeta where
  name : String
  ftype : String
  mode : String
  description : Option String
deriving DecidableEq, Repr

/-- The per-object record emitted by `get_table_metadata` on success.
Optional fields are the keys the code sets to `None` or omits for some
object kinds (`none` covers both). -/
structure TableMetadata where
  table_id : String
  full_table_id : String
  table_type : String
  created : Option String
  modified : Option String
  schema : List SchemaFieldMeta
  num_fields : Nat
  num_rows : Option Nat
  num_bytes : Option Nat
  size_gb : Option Rat
  clustering_fields : List String
  view_query : Option String
  external_config : Option ExtConfigMeta
  labels : List (String × String)
deriving DecidableEq, Repr

/-- Lines 31–95: the success branch of `get_table_metadata`, a pure function
of the fetched table object. -/
def metaOfTable (t : BQTable) : TableMetadata :=
  { table_id := t.table_id
    full_table_id := t.project ++ "." ++ t.dataset_id ++ "." ++ t.table_id
    table_type := t.table_type
    created := t.created
    modified := t.modified
    schema := t.schema.map (fun f => { name := f.name, ftype := f.field_type,
                                       mode := f.mode, description := f.description })
    num_fields := t.schema.length
    num_rows :=
      if t.table_type = "TABLE" ∨ t.table_type = "EXTERNAL" then some t.num_rows else none
    num_bytes :=
      if t.table_type = "TABLE" ∨ t.table_type = "EXTERNAL" then some t.num_bytes else none
    size_gb :=
      if t.table_type = "TABLE" ∨ t.table_type = "EXTERNAL" then
        some (if t.num_bytes = 0 then 0 else round2 ((t.num_bytes : Rat) / 1073741824))
      else none
    clustering_fields := t.clustering_fields
    view_query := if t.table_type = "VIEW" then some t.view_query else none
    external_config :=
      if t.table_type = "EXTERNAL" then
        match t.external_data_configuration with
        | some cfg =>
          some { source_format := cfg.source_format
                 source_uris := if cfg.source_uris = [] then [] else cfg.source_uris.take 3
                 num_source_uris := if cfg.source_uris = [] then 0 else cfg.source_uris.length
                 compression := cfg.compression
                 csv_options := some cfg.options }
        | none => none
      else none
    labels := t.labels }

/-- A harvested record: either the metadata dict or the error marker
`{"table_id": table_id.split(".")[-1], "error": str(e)}` of lines 97–101. -/
inductive FetchResult
  | ok (m : TableMetadata)
  | fetchErr (table_id : String) (error : String)
deriving DecidableEq, Repr

/-- Lines 25–101: `get_table_metadata`.  `getTable` is the oracle for
`client.get_table`; a raised exception is caught and replaced by the error
marker. -/
def get_table_metadata (getTable : String → Except String BQTable)
    (table_id : String) : FetchResult :=
  match getTable table_id with
  | .ok t => .ok (metaOfTable t)
  | .error e => .fetchErr (lastDot table_id) e

/-- The `summary` dict (lines 120–126).  JSON keys `by_type` and `by_prefix`
are rendered as `typeCounts` and `prefixCounts`. -/
structure HarvestSummary where
  total_tables : Nat
  typeCounts : List (String × Nat)
  prefixCounts : List (String × Nat)
  total_rows : Nat
  total_size_gb : Rat
deriving DecidableEq, Repr

def initSummary (n : Nat) : HarvestSummary :=
  { total_tables := n, typeCounts := [], prefixCounts := [], total_rows := 0,
    total_size_gb := 0 }

/-- Lines 138–154: one iteration's summary update.  An error marker leaves
the summary untouched; otherwise the type and prefix counters are bumped and
the (Python-truthy, hence nonzero) row and size figures are accumulated. -/
def summaryStep (getTable : String → Except String BQTable)
    (s : HarvestSummary) (name : String) : HarvestSummary :=
  match get_table_metadata getTable (qualifyName name) with
  | .fetchErr _ _ => s
  | .ok m =>
    let s1 := { s with typeCounts := bump s.typeCounts m.table_type }
    let s2 := { s1 with prefixCounts := bump s1.prefixCounts (prefixKey name) }
    let s3 :=
      match m.num_rows with
      | some n => if n ≠ 0 then { s2 with total_rows := s2.total_rows + n } else s2
      | none => s2
    match m.size_gb with
    | some g => if g ≠ 0 then { s3 with total_size_gb := s3.total_size_gb + g } else s3
    | none => s3

/-- The summary accumulated over the (already sorted) table names. -/
def harvestSummary (getTable : String → Except String BQTable)
    (names : List String) (s0 : HarvestSummary) : HarvestSummary :=
  names.foldl (summaryStep getTable) s0

/-- The per-object records keyed by short name, in processing order. -/
def harvestTables (getTable : String → Except String BQTable)
    (names : List String) : List (String × FetchResult) :=
  names.map (fun n => (n, get_table_metadata getTable (qualifyName n)))

/-- Dataset attributes read at line 110. -/
structure DatasetInfo where
  location : String
  created : Option String
  modified : Option String
deriving DecidableEq, Repr

/-- The whole output document (`metadata_generated` — wall-clock time — is
not modelled). -/
structure MetadataReport where
  project_id : String
  dataset_id : String
  dataset_location : String
  dataset_created : Option String
  dataset_modified : Option String
  tables : List (String × FetchResult)
  summary : HarvestSummary
deriving DecidableEq, Repr

/-- Lines 104–158: `gather_all_metadata`.  The `get_dataset` and
`list_tables` calls are not wrapped in any try/except in the source, so
their errors propagate (hence the `Except` result); per-table fetches are
caught inside `get_table_metadata`. -/
def gather_all_metadata (getDataset : String → Except String DatasetInfo)
    (listTables : String → Except String (List String))
    (getTable : String → Except String BQTable) : Except String MetadataReport := do
  let dataset_id := PROJECT_ID ++ "." ++ DATASET_ID
  let ds ← getDataset dataset_id
  let names ← listTables dataset_id
  let sorted := sortNames names
  let s := harvestSummary getTable sorted (initSummary names.length)
  pure { project_id := PROJECT_ID
         dataset_id := DATASET_ID
         dataset_location := ds.location
         dataset_created := ds.created
         dataset_modified := ds.modified
         tables := harvestTables getTable sorted
         summary := { s with total_size_gb := round2 s.total_size_gb } }

/-! ### Concrete catalog fixtures used in witnesses and counterexamples -/

/-- A plain managed table as the API would report it. -/
def samplePlainTable (name : String) : BQTable :=
  { project := PROJECT_ID, dataset_id := DATASET_ID, table_id := name,
    table_type := "TABLE", created := none, modified := none, schema := [],
    num_rows := 1, num_bytes := 0, clustering_fields := [], view_query := "",
    external_data_configuration := none, labels := [] }

/-- A view as the API would report it. -/
def sampleViewTable : BQTable :=
  { samplePlainTable "src_marker_abundance" with
    table_type := "VIEW", view_query := fmtQuery q_src_marker_abundance }

/-- An external table as the API would report it. -/
def sampleExtTable : BQTable :=
  { samplePlainTable "ext_marker_abundance" with
    table_type := "EXTERNAL",
    external_data_configuration := some (mkExternalConfig d_ext_marker_abundance) }

/-! ## Theorems settling the claims -/

/-- C5: for every TableDefinition in the registry, the external-table
configuration built by the External Table Provisioner has field delimiter
exactly the tab character, compression GZIP, skip_leading_rows equal to the
definition's header-skip count, schema equal to the definition's column
schema, and source URIs equal to the one-element list with the definition's
glob pattern. -/
theorem spec_C5_external_config (p : String × TableDefinition)
    (_hp : p ∈ TABLE_DEFINITIONS) :
    (mkExternalConfig p.2).options.field_delimiter = "\t" ∧
    (mkExternalConfig p.2).compression = "GZIP" ∧
    (mkExternalConfig p.2).options.skip_leading_rows = p.2.skip_rows ∧
    (mkExternalConfig p.2).schema = p.2.schema ∧
    (mkExternalConfig p.2).source_uris = [p.2.path] :=
  ⟨rfl, rfl, rfl, rfl, rfl⟩

/-- Witness for C5 at the first registry entry. -/
theorem spec_C5_witness :
    ("ext_marker_abundance", d_ext_marker_abundance) ∈ TABLE_DEFINITIONS ∧
    (mkExternalConfig d_ext_marker_abundance).options.field_delimiter = "\t" ∧
    (mkExternalConfig d_ext_marker_abundance).compression = "GZIP" ∧
    (mkExternalConfig d_ext_marker_abundance).options.skip_leading_rows =
      d_ext_marker_abundance.skip_rows ∧
    (mkExternalConfig d_ext_marker_abundance).schema = d_ext_marker_abundance.schema ∧
    (mkExternalConfig d_ext_marker_abundance).source_uris = [d_ext_marker_abundance.path] :=
  ⟨List.mem_cons_self _ _,
   spec_C5_external_config ("ext_marker_abundance", d_ext_marker_abundance)
     (List.mem_cons_self _ _)⟩

/-- C9: every registry name starts with "ext_", all registry names are
distinct, the source-view names are exactly the registry names with the
prefix replaced by "src_", the staging names are exactly the registry names
with the prefix replaced by "stg_" (so each registry name has exactly one
sibling per tier and no other view/staging definitions exist), and the
staging ASTs are keyed identically to the staging SQL. -/
theorem spec_C9_naming_tiers :
    (TABLE_DEFINITIONS.map (fun p => p.1)).all
      (fun n => n.toList.take 4 == "ext_".toList) = true ∧
    (TABLE_DEFINITIONS.map (fun p => p.1)).Nodup ∧
    SOURCE_VIEWS.map (fun p => p.1) =
      (TABLE_DEFINITIONS.map (fun p => p.1)).map
        (fun n => "src_" ++ String.mk (n.toList.drop 4)) ∧
    STAGING_QUERIES.map (fun p => p.1) =
      (TABLE_DEFINITIONS.map (fun p => p.1)).map
        (fun n => "stg_" ++ String.mk (n.toList.drop 4)) ∧
    (SOURCE_VIEWS.map (fun p => p.1)).Nodup ∧
    (STAGING_QUERIES.map (fun p => p.1)).Nodup ∧
    STAGING_SELECTS.map (fun p => p.1) = STAGING_QUERIES.map (fun p => p.1) := by
  refine ⟨?_, ?_, ?_, ?_, ?_, ?_, ?_⟩ <;> decide

/-- C10: in `create_staging_table`, when the materialization job succeeds but
the subsequent metadata read-back fails, the function reports `False` even
though the destination has already been truncated and rebuilt with the
query's result (clustered by sample_id) — so a `False` result does not imply
the prior staging content is unchanged. -/
theorem spec_C10_false_after_rebuild (cat : Catalog) (src : String → List SqlRow)
    (table_name : String) (sel : StagingSelect) :
    (create_staging_table cat src table_name sel true false).2 = false ∧
    (create_staging_table cat src table_name sel true false).1 (qualifyName table_name) =
      some (.stgObj (evalStaging sel (src sel.fromView)) ["sample_id"]) := by
  constructor
  · rfl
  · simp [create_staging_table, mkStagingJobConfig, setVal]

/-- C8: if the catalog API raises during external-table creation, the error
is caught, the printed message is the failure line naming the fully
qualified object, the function returns `False`, and the driver still
processes every registry entry (one printed line and one tally entry per
definition, regardless of failures). -/
theorem spec_C8_failure_is_skip
    (createTable : String → ExternalConfig → Except String Unit)
    (table_name : String) (d : TableDefinition) (e : String)
    (h : createTable (qualifyName table_name) (mkExternalConfig d) = .error e) :
    create_external_table createTable table_name d =
      (false, "✗ Failed to create " ++ qualifyName table_name ++ ": " ++ e) ∧
    (∀ getDataset : String → Except String Unit,
      getDataset (PROJECT_ID ++ "." ++ DATASET_ID) = .ok () →
        (cet_main getDataset createTable).printed.length = TABLE_DEFINITIONS.length ∧
        (cet_main getDataset createTable).success_count =
          some ((TABLE_DEFINITIONS.map
            (fun p => create_external_table createTable p.1 p.2)).countP (fun r => r.1))) := by
  constructor
  · simp [create_external_table, h]
  · intro gd hgd
    simp [cet_main, hgd]

/-- Witness for C8 with an always-failing creation oracle. -/
theorem spec_C8_witness :
    create_external_table (fun _ _ => .error "boom") "ext_marker_abundance"
        d_ext_marker_abundance =
      (false, "✗ Failed to create " ++ qualifyName "ext_marker_abundance" ++ ": " ++ "boom") ∧
    (cet_main (fun _ => .ok ()) (fun _ _ => .error "boom")).printed.length =
      TABLE_DEFINITIONS.length :=
  ⟨(spec_C8_failure_is_skip (fun _ _ => .error "boom") "ext_marker_abundance"
      d_ext_marker_abundance "boom" rfl).1,
   ((spec_C8_failure_is_skip (fun _ _ => .error "boom") "ext_marker_abundance"
      d_ext_marker_abundance "boom" rfl).2 (fun _ => .ok ()) rfl).1⟩

/-- C6: metadata extraction is type-conditional — a VIEW record has null
num_rows and carries the view's defining query; an EXTERNAL record with an
attached configuration lists at most 3 source URIs while num_source_uris is
the full count; a TABLE record has both num_rows and num_bytes present. -/
theorem spec_C6_type_conditional (t : BQTable) :
    (t.table_type = "VIEW" →
      (metaOfTable t).num_rows = none ∧
      (metaOfTable t).view_query = some t.view_query) ∧
    (∀ cfg, t.table_type = "EXTERNAL" → t.external_data_configuration = some cfg →
      ∃ ec, (metaOfTable t).external_config = some ec ∧
        ec.source_uris.length ≤ 3 ∧
        ec.num_source_uris = cfg.source_uris.length) ∧
    (t.table_type = "TABLE" →
      (metaOfTable t).num_rows = some t.num_rows ∧
      (metaOfTable t).num_bytes = some t.num_bytes) := by
  refine ⟨?_, ?_, ?_⟩
  · intro h
    simp [metaOfTable, h]
  · intro cfg h hc
    refine ⟨{ source_format := cfg.source_format
              source_uris := if cfg.source_uris = [] then [] else cfg.source_uris.take 3
              num_source_uris := if cfg.source_uris = [] then 0 else cfg.source_uris.length
              compression := cfg.compression
              csv_options := some cfg.options }, ?_, ?_, ?_⟩
    · simp [metaOfTable, h, hc]
    · rcases hu : cfg.source_uris with _ | ⟨u, us⟩ <;>
        simp [hu, List.length_take]
    · rcases hu : cfg.source_uris with _ | ⟨u, us⟩ <;> simp [hu]
  · intro h
    simp [metaOfTable, h]

/-- Witness for C6: one concrete table of each kind. -/
theorem spec_C6_witness :
    ((metaOfTable (sampleViewTable)).num_rows = none ∧
     (metaOfTable (sampleViewTable)).view_query = some sampleViewTable.view_query) ∧
    (∃ ec, (metaOfTable (sampleExtTable)).external_config = some ec ∧
      ec.source_uris.length ≤ 3 ∧
      ec.num_source_uris = (mkExternalConfig d_ext_marker_abundance).source_uris.length) ∧
    ((metaOfTable (samplePlainTable "stg_x")).num_rows =
       some (samplePlainTable "stg_x").num_rows ∧
     (metaOfTable (samplePlainTable "stg_x")).num_bytes =
       some (samplePlainTable "stg_x").num_bytes) :=
  ⟨(spec_C6_type_conditional sampleViewTable).1 rfl,
   (spec_C6_type_conditional sampleExtTable).2.1
     (mkExternalConfig d_ext_marker_abundance) rfl rfl,
   (spec_C6_type_conditional (samplePlainTable "stg_x")).2.2 rfl⟩

/-- C3 counterexample: the Metadata Harvester's `get_dataset` call is not
guarded by any try/except, so when the target namespace is missing the error
propagates out of `gather_all_metadata` (and hence out of the top-level
driver) instead of being converted into a printed message and marker — and
no remediation text or early return happens in that program. -/
theorem spec_C3_counterexample :
    gather_all_metadata (fun _ => .error "404 Not found: dataset")
      (fun _ => .ok []) (fun _ => .error "unreachable") =
      .error "404 Not found: dataset" := rfl

/-- C3 amended: per-object external-API calls are caught at the call site
and converted into a printed message plus a boolean or marker result (shown
here for external-table creation and per-object metadata fetch), and the
External Table Provisioner checks the namespace up front, printing
remediation instructions and returning early without raising; but the
Metadata Harvester leaves its dataset fetch and table listing unguarded, so
an error there — including a missing namespace — propagates past the
driver. -/
theorem spec_C3_amended
    (getDatasetU : String → Except String Unit) (m : String)
    (h1 : getDatasetU (PROJECT_ID ++ "." ++ DATASET_ID) = .error m)
    (createTable : String → ExternalConfig → Except String Unit)
    (table_name : String) (d : TableDefinition) (e : String)
    (h2 : createTable (qualifyName table_name) (mkExternalConfig d) = .error e)
    (getTable : String → Except String BQTable) (tid e2 : String)
    (h3 : getTable tid = .error e2)
    (getDataset : String → Except String DatasetInfo) (e3 : String)
    (h4 : getDataset (PROJECT_ID ++ "." ++ DATASET_ID) = .error e3)
    (listTables : String → Except String (List String))
    (getTable2 : String → Except String BQTable) :
    cet_main getDatasetU createTable =
      { printed :=
          [ "✗ Dataset " ++ (PROJECT_ID ++ "." ++ DATASET_ID) ++
              " not found. Create it first with:",
            "  bq mk --dataset --location=US " ++ (PROJECT_ID ++ "." ++ DATASET_ID) ]
        success_count := none } ∧
    create_external_table createTable table_name d =
      (false, "✗ Failed to create " ++ qualifyName table_name ++ ": " ++ e) ∧
    get_table_metadata getTable tid = .fetchErr (lastDot tid) e2 ∧
    gather_all_metadata getDataset listTables getTable2 = .error e3 := by
  refine ⟨?_, ?_, ?_, ?_⟩
  · simp [cet_main, h1]
  · simp [create_external_table, h2]
  · simp [get_table_metadata, h3]
  · simp only [gather_all_metadata, h4]
    rfl

/-- Witness for C3 amended, with concrete failing oracles. -/
theorem spec_C3_amended_witness :
    cet_main (fun _ => .error "nf") (fun _ _ => .error "x") =
      { printed :=
          [ "✗ Dataset " ++ (PROJECT_ID ++ "." ++ DATASET_ID) ++
              " not found. Create it first with:",
            "  bq mk --dataset --location=US " ++ (PROJECT_ID ++ "." ++ DATASET_ID) ]
        success_count := none } ∧
    create_external_table (fun _ _ => .error "x") "ext_marker_abundance"
        d_ext_marker_abundance =
      (false, "✗ Failed to create " ++ qualifyName "ext_marker_abundance" ++ ": " ++ "x") ∧
    get_table_metadata (fun _ => .error "y") (qualifyName "stg_marker_abundance") =
      .fetchErr (lastDot (qualifyName "stg_marker_abundance")) "y" ∧
    gather_all_metadata (fun _ => .error "nf") (fun _ => .ok [])
        (fun _ => .error "unused") = .error "nf" :=
  spec_C3_amended (fun _ => .error "nf") "nf" rfl (fun _ _ => .error "x")
    "ext_marker_abundance" d_ext_marker_abundance "x" rfl (fun _ => .error "y")
    (qualifyName "stg_marker_abundance") "y" rfl (fun _ => .error "nf") "nf" rfl
    (fun _ => .ok []) (fun _ => .error "unused")

/-- The object names of the spec's naming-prefix example. -/
def quirkNames : List String := ["ext_a", "src_a", "stg_a", "weird"]

/-- A fetch oracle under which every listed object is a plain table. -/
def quirkFetch : String → Except String BQTable :=
  fun tid => .ok (samplePlainTable (lastDot tid))

/-- The summary the harvester aggregates over the example names. -/
def quirkSummary : HarvestSummary :=
  harvestSummary quirkFetch (sortNames quirkNames) (initSummary quirkNames.length)

/-- C1 counterexample: for the object names ["ext_a","src_a","stg_a","weird"]
the by-prefix summary has no "w" bucket at all (count 0, the claim says 1):
a name without an underscore is bucketed under the whole name plus an
underscore, not under its first character plus an underscore. -/
theorem spec_C1_counterexample :
    getCount quirkSummary.prefixCounts "w" = 0 ∧
    prefixKey "weird" = "weird_" ∧ prefixKey "weird" ≠ "w" := by
  refine ⟨?_, ?_, ?_⟩ <;> decide

/-- C1 amended: counts_by_prefix groups every successfully fetched object by
the substring of its name before the first underscore plus an underscore,
and a name containing no underscore lands in a degenerate bucket made of the
entire name plus an underscore — for ["ext_a","src_a","stg_a","weird"] the
by-prefix counts are {ext_:1, src_:1, stg_:1, weird_:1}. -/
theorem spec_C1_amended :
    quirkSummary.prefixCounts =
      [("ext_", 1), ("src_", 1), ("stg_", 1), ("weird_", 1)] ∧
    (∀ s : String, s.toList.all (fun c => c ≠ '_') = true → prefixKey s = s ++ "_") := by
  constructor
  · decide
  · intro s hs
    unfold prefixKey
    have h2 : s.toList.takeWhile (fun c => decide (c ≠ '_')) = s.toList :=
      List.takeWhile_eq_self_iff.mpr (fun x hx => List.all_eq_true.mp hs x hx)
    rw [h2]
    rfl

/-- Witness for C1 amended at the underscore-free name "weird". -/
theorem spec_C1_amended_witness :
    ("weird".toList.all (fun c => c ≠ '_') = true) ∧
    prefixKey "weird" = "weird" ++ "_" :=
  ⟨by decide, spec_C1_amended.2 "weird" (by decide)⟩

/-- Folding the last-segment accumulator over dot-free characters appends
them all. -/
theorem foldl_dotfree (l : List Char) (acc : List Char)
    (h : ∀ c ∈ l, c ≠ '.') :
    l.foldl (fun acc c => if c = '.' then [] else acc ++ [c]) acc = acc ++ l := by
  induction l generalizing acc with
  | nil => simp
  | cons c rest ih =>
    have hc : c ≠ '.' := h c (List.mem_cons_self _ _)
    simp only [List.foldl_cons, if_neg hc]
    rw [ih _ (fun x hx => h x (List.mem_cons_of_mem _ hx))]
    simp

/-- For a dot-free short name, `split(".")[-1]` of the qualified name
recovers the short name. -/
theorem lastDot_qualifyName (name : String)
    (h : name.toList.all (fun c => c ≠ '.') = true) :
    lastDot (qualifyName name) = name := by
  have hsplit : (qualifyName name).toList =
      (PROJECT_ID ++ "." ++ DATASET_ID ++ ".").toList ++ name.toList := rfl
  unfold lastDot
  rw [hsplit, List.foldl_append]
  have hpre : (PROJECT_ID ++ "." ++ DATASET_ID ++ ".").toList.foldl
      (fun acc c => if c = '.' then [] else acc ++ [c]) [] = [] := by decide
  rw [hpre, foldl_dotfree name.toList []
    (fun c hc => by simpa using List.all_eq_true.mp h c hc)]
  rfl

/-- C7: a per-object fetch failure does not abort the harvest — the failing
object's record is exactly the error marker carrying the object's short name
and the error text, every other object is still processed in place, and the
failing object contributes to none of the summary aggregates (counts by
type, counts by prefix, total rows, total size). -/
theorem spec_C7_fetch_failure_isolated
    (getTable : String → Except String BQTable)
    (L1 L2 : List String) (name e : String)
    (h : getTable (qualifyName name) = .error e)
    (hn : name.toList.all (fun c => c ≠ '.') = true) :
    harvestTables getTable (L1 ++ name :: L2) =
      harvestTables getTable L1 ++
        (name, .fetchErr name e) :: harvestTables getTable L2 ∧
    (∀ s0, harvestSummary getTable (L1 ++ name :: L2) s0 =
      harvestSummary getTable (L1 ++ L2) s0) := by
  have hmark : get_table_metadata getTable (qualifyName name) = .fetchErr name e := by
    simp [get_table_metadata, h, lastDot_qualifyName name hn]
  constructor
  · simp [harvestTables, hmark]
  · intro s0
    have hstep : ∀ s, summaryStep getTable s name = s := by
      intro s
      simp [summaryStep, hmark]
    unfold harvestSummary
    rw [List.foldl_append, List.foldl_append, List.foldl_cons, hstep]

/-- Witness for C7 with a concrete failing fetch. -/
theorem spec_C7_witness :
    harvestTables (fun _ => .error "boom") (["a_tbl"] ++ "stg_x" :: []) =
      harvestTables (fun _ => .error "boom") ["a_tbl"] ++
        ("stg_x", .fetchErr "stg_x" "boom") ::
          harvestTables (fun _ => .error "boom") [] ∧
    harvestSummary (fun _ => .error "boom") (["a_tbl"] ++ "stg_x" :: [])
        (initSummary 2) =
      harvestSummary (fun _ => .error "boom") (["a_tbl"] ++ []) (initSummary 2) :=
  ⟨(spec_C7_fetch_failure_isolated (fun _ => .error "boom") ["a_tbl"] []
      "stg_x" "boom" rfl (by decide)).1,
   (spec_C7_fetch_failure_isolated (fun _ => .error "boom") ["a_tbl"] []
      "stg_x" "boom" rfl (by decide)).2 (initSummary 2)⟩

/-- A select expression whose outermost operation is a pass-through or a
NULL-on-failure (safe) cast. -/
def exprSafe : SqlExpr → Bool
  | .col _ => true
  | .castFloat64 _ => true
  | .castInt64 _ => true
  | .nullifLit _ _ => false

/-- Every row produced by a staging SELECT whose filter is
`WHERE sample_id IS NOT NULL` and whose first output column passes
sample_id through has a non-null sample_id. -/
theorem evalStaging_sample_id_not_null (sel : StagingSelect)
    (h1 : sel.whereNotNullCol = some "sample_id")
    (h2 : ∃ rest, sel.selects = ("sample_id", .col "sample_id") :: rest) :
    ∀ rows r, r ∈ evalStaging sel rows →
      ((lookupKV r "sample_id").getD none).isSome = true := by
  rintro rows r hr
  obtain ⟨rest, hsel⟩ := h2
  unfold evalStaging at hr
  rw [List.mem_map] at hr
  obtain ⟨r0, hr0, rfl⟩ := hr
  rw [List.mem_filter] at hr0
  have hsat := hr0.2
  rw [h1] at hsat
  unfold rowSatisfies at hsat
  rw [hsel]
  unfold projectRow
  simpa [lookupKV, evalExpr] using hsat

/-- C4: every staging materialization query filters on
`sample_id IS NOT NULL` (syntactically and semantically: every output row
has a non-null sample_id), every computed output column is a safe
(NULL-on-failure) cast, the job configuration targets the staging table with
WRITE_TRUNCATE write disposition and clustering fields ["sample_id"], the
coverage column — where one exists — is cast through `NULLIF(coverage, '-')`
so the sentinel "-" becomes NULL before the cast, and an unparsable value
under a safe float cast yields NULL rather than an error. -/
theorem spec_C4_staging_query (p : String × StagingSelect)
    (hp : p ∈ STAGING_SELECTS) :
    p.2.whereNotNullCol = some "sample_id" ∧
    (∀ rows r, r ∈ evalStaging p.2 rows →
      ((lookupKV r "sample_id").getD none).isSome = true) ∧
    p.2.selects.all (fun q => exprSafe q.2) = true ∧
    mkStagingJobConfig p.1 =
      { destination := qualifyName p.1
        write_disposition := "WRITE_TRUNCATE"
        clustering_fields := ["sample_id"] } ∧
    (lookupKV p.2.selects "coverage" = none ∨
     lookupKV p.2.selects "coverage" =
       some (.castFloat64 (.nullifLit (.col "coverage") "-"))) ∧
    (∀ r : SqlRow, (lookupKV r "coverage").getD none = some (.vStr "-") →
      evalExpr r (.castFloat64 (.nullifLit (.col "coverage") "-")) = none) ∧
    safeCastFloat (some (.vStr "not a number")) = none := by
  have hsent : ∀ r : SqlRow, (lookupKV r "coverage").getD none = some (.vStr "-") →
      evalExpr r (.castFloat64 (.nullifLit (.col "coverage") "-")) = none := by
    intro r hrv
    simp [evalExpr, hrv, safeCastFloat]
  fin_cases hp <;>
    exact ⟨rfl, evalStaging_sample_id_not_null _ rfl ⟨_, rfl⟩, rfl, rfl,
      by first | exact Or.inl rfl | exact Or.inr rfl, hsent, rfl⟩

/-- Witness for C4 at the coverage-bearing staging query, with a concrete
sentinel row. -/
theorem spec_C4_witness :
    ("stg_marker_rel_ab_w_read_stats", sel_stg_marker_rel_ab_w_read_stats) ∈
      STAGING_SELECTS ∧
    sel_stg_marker_rel_ab_w_read_stats.whereNotNullCol = some "sample_id" ∧
    lookupKV sel_stg_marker_rel_ab_w_read_stats.selects "coverage" =
      some (.castFloat64 (.nullifLit (.col "coverage") "-")) ∧
    evalExpr [("coverage", some (.vStr "-"))]
      (.castFloat64 (.nullifLit (.col "coverage") "-")) = none := by
  have h := spec_C4_staging_query
    ("stg_marker_rel_ab_w_read_stats", sel_stg_marker_rel_ab_w_read_stats)
    (by decide)
  refine ⟨by decide, h.1, ?_, h.2.2.2.2.2.1 [("coverage", some (.vStr "-"))] (by decide)⟩
  rcases h.2.2.2.2.1 with hc | hc
  · exact absurd hc (by decide)
  · exact hc

/-! ### Catalog lemmas for the provisioner run -/

theorem setVal_apply_ne (c : Catalog) (k : String) (v : CatVal) (m : String)
    (h : m ≠ k) : setVal c k v m = c m := by
  simp [setVal, h]

theorem create_view_apply_ne (c : Catalog) (n q m : String)
    (h : m ≠ qualifyName n) : (create_view c n q).1 m = c m := by
  unfold create_view
  dsimp only
  split
  · rfl
  · simp [setVal, h]

theorem create_view_val_mono (c : Catalog) (n q m : String) (v : CatVal)
    (h : c m = some v) : (create_view c n q).1 m = some v := by
  unfold create_view
  dsimp only
  split
  · exact h
  · rename_i hns
    by_cases hm : m = qualifyName n
    · rw [hm] at h
      rw [h] at hns
      simp at hns
    · simp [setVal, hm, h]

theorem create_view_creates (c : Catalog) (n q : String)
    (h : c (qualifyName n) = none) :
    (create_view c n q).1 (qualifyName n) = some (.viewObj (fmtQuery q)) := by
  unfold create_view
  dsimp only
  rw [if_neg (by simp [h])]
  simp [setVal]

theorem create_view_present (c : Catalog) (n q : String) :
    ((create_view c n q).1 (qualifyName n)).isSome = true := by
  unfold create_view
  dsimp only
  split
  · assumption
  · simp [setVal]

theorem create_view_of_present (c : Catalog) (n q : String)
    (h : (c (qualifyName n)).isSome = true) : (create_view c n q).1 = c := by
  unfold create_view
  dsimp only
  rw [if_pos h]

theorem foldl_cv_mono (l : List (String × String)) (c : Catalog) (m : String)
    (h : (c m).isSome = true) :
    ((l.foldl (fun c p => (create_view c p.1 p.2).1) c) m).isSome = true := by
  induction l generalizing c with
  | nil => exact h
  | cons q rest ih =>
    apply ih
    obtain ⟨v, hv⟩ := Option.isSome_iff_exists.mp h
    dsimp only
    rw [create_view_val_mono c q.1 q.2 m v hv]
    rfl

theorem foldl_cv_present (l : List (String × String)) (c : Catalog)
    (p : String × String) (hp : p ∈ l) :
    ((l.foldl (fun c p => (create_view c p.1 p.2).1) c) (qualifyName p.1)).isSome
      = true := by
  induction l generalizing c with
  | nil => cases hp
  | cons q rest ih =>
    rcases List.mem_cons.mp hp with h | h
    · rw [h]
      exact foldl_cv_mono rest _ _ (create_view_present c q.1 q.2)
    · exact ih _ h

theorem foldl_cv_of_present (l : List (String × String)) (c : Catalog)
    (h : ∀ p ∈ l, ((c (qualifyName p.1)).isSome = true)) :
    l.foldl (fun c p => (create_view c p.1 p.2).1) c = c := by
  induction l generalizing c with
  | nil => rfl
  | cons q rest ih =>
    rw [List.foldl_cons, create_view_of_present c q.1 q.2 (h q (List.mem_cons_self _ _))]
    exact ih c (fun p hp => h p (List.mem_cons_of_mem _ hp))

theorem create_staging_apply_ne (c : Catalog) (src : String → List SqlRow)
    (n : String) (sel : StagingSelect) (m : String) (h : m ≠ qualifyName n) :
    (create_staging_table c src n sel true true).1 m = c m := by
  simp [create_staging_table, mkStagingJobConfig, setVal, h]

theorem foldl_stg_apply_ne (l : List (String × StagingSelect)) (c : Catalog)
    (src : String → List SqlRow) (m : String)
    (h : ∀ p ∈ l, m ≠ qualifyName p.1) :
    (l.foldl (fun c p => (create_staging_table c src p.1 p.2 true true).1) c) m
      = c m := by
  induction l generalizing c with
  | nil => rfl
  | cons q rest ih =>
    rw [List.foldl_cons, ih _ (fun p hp => h p (List.mem_cons_of_mem _ hp)),
      create_staging_apply_ne c src q.1 q.2 m (h q (List.mem_cons_self _ _))]

theorem runStaging_apply_ne (c : Catalog) (src : String → List SqlRow)
    (m : String) (h : ∀ p ∈ STAGING_SELECTS, m ≠ qualifyName p.1) :
    runStaging c src m = c m :=
  foldl_stg_apply_ne STAGING_SELECTS c src m h

/-- The staging fold writes each staging table's rebuilt content. -/
theorem runStaging_writes (c : Catalog) (src : String → List SqlRow)
    (p : String × StagingSelect) (hp : p ∈ STAGING_SELECTS) :
    runStaging c src (qualifyName p.1) =
      some (.stgObj (evalStaging p.2 (src p.2.fromView)) ["sample_id"]) := by
  fin_cases hp <;>
    simp [runStaging, STAGING_SELECTS, create_staging_table, mkStagingJobConfig,
      setVal, qualifyName, PROJECT_ID, DATASET_ID]

/-- Rebuilding the staging tables twice from the same source data is the
same as rebuilding them once. -/
theorem runStaging_runStaging (c : Catalog) (src : String → List SqlRow) :
    runStaging (runStaging c src) src = runStaging c src := by
  funext k
  simp only [runStaging, STAGING_SELECTS, List.foldl_cons, List.foldl_nil,
    create_staging_table, mkStagingJobConfig, setVal, if_true]
  split_ifs <;> rfl

set_option maxRecDepth 8192 in
/-- A second pass of view creation after a full provisioner run changes
nothing: every view name is already present. -/
theorem runViews_after_run (cat : Catalog) (src : String → List SqlRow) :
    runViews (runStaging (runViews cat) src) = runStaging (runViews cat) src := by
  apply foldl_cv_of_present
  intro p hp
  fin_cases hp <;>
    · rw [runStaging_apply_ne _ _ _ (by decide)]
      exact foldl_cv_present SOURCE_VIEWS _ _ (by decide)

/-- C2 part: re-running the provisioner converges — the catalog after the
second run equals the catalog after the first. -/
theorem runProvisioner_idem (cat : Catalog) (src : String → List SqlRow) :
    runProvisioner (runProvisioner cat src) src = runProvisioner cat src := by
  unfold runProvisioner
  rw [runViews_after_run, runStaging_runStaging]

set_option maxRecDepth 8192 in
/-- After one successful provisioner run from a catalog in which no source
view pre-exists, each view body equals its formatted definition query. -/
theorem runProvisioner_view_body (cat : Catalog) (src : String → List SqlRow)
    (habs : ∀ p ∈ SOURCE_VIEWS, cat (qualifyName p.1) = none)
    (p : String × String) (hp : p ∈ SOURCE_VIEWS) :
    runProvisioner cat src (qualifyName p.1) = some (.viewObj (fmtQuery p.2)) := by
  have h1 := habs _ (List.mem_cons_self _ _)
  have h2 := habs _ (List.mem_cons_of_mem _ (List.mem_cons_self _ _))
  have h3 := habs _
    (List.mem_cons_of_mem _ (List.mem_cons_of_mem _ (List.mem_cons_self _ _)))
  have h4 := habs _ (List.mem_cons_of_mem _
    (List.mem_cons_of_mem _ (List.mem_cons_of_mem _ (List.mem_cons_self _ _))))
  have h5 := habs _ (List.mem_cons_of_mem _ (List.mem_cons_of_mem _
    (List.mem_cons_of_mem _ (List.mem_cons_of_mem _ (List.mem_cons_self _ _)))))
  simp [qualifyName, PROJECT_ID, DATASET_ID] at h1 h2 h3 h4 h5
  fin_cases hp <;>
    · rw [show runProvisioner cat src = runStaging (runViews cat) src from rfl,
        runStaging_apply_ne _ _ _ (by decide)]
      simp [runViews, SOURCE_VIEWS, create_view, setVal, qualifyName,
        PROJECT_ID, DATASET_ID, h1, h2, h3, h4, h5]

/-- C2 amended: re-running the View/Staging Provisioner with unchanged
definitions converges — the catalog after the second run equals the catalog
after the first; after the second run every staging table holds exactly the
fully truncated and rebuilt result of its query over the (unchanged) source
data, clustered by sample_id; and, provided no source view pre-existed
before the first run, every view body equals the definition's query.  (View
creation uses create-if-absent semantics, so a pre-existing view body is
left untouched rather than replaced.) -/
theorem spec_C2_idempotent_rerun (cat : Catalog) (src : String → List SqlRow) :
    runProvisioner (runProvisioner cat src) src = runProvisioner cat src ∧
    (∀ p ∈ STAGING_SELECTS,
      runProvisioner (runProvisioner cat src) src (qualifyName p.1) =
        some (.stgObj (evalStaging p.2 (src p.2.fromView)) ["sample_id"])) ∧
    ((∀ p ∈ SOURCE_VIEWS, cat (qualifyName p.1) = none) →
      ∀ p ∈ SOURCE_VIEWS,
        runProvisioner (runProvisioner cat src) src (qualifyName p.1) =
          some (.viewObj (fmtQuery p.2))) := by
  refine ⟨runProvisioner_idem cat src, ?_, ?_⟩
  · intro p hp
    rw [congrFun (runProvisioner_idem cat src) (qualifyName p.1)]
    exact runStaging_writes (runViews cat) src p hp
  · intro habs p hp
    rw [congrFun (runProvisioner_idem cat src) (qualifyName p.1)]
    exact runProvisioner_view_body cat src habs p hp

/-- Witness for C2 amended: a fresh catalog and empty source data. -/
theorem spec_C2_witness :
    runProvisioner (runProvisioner (fun _ => none) (fun _ => [])) (fun _ => []) =
      runProvisioner (fun _ => none) (fun _ => []) ∧
    runProvisioner (runProvisioner (fun _ => none) (fun _ => [])) (fun _ => [])
        (qualifyName "stg_marker_abundance") =
      some (.stgObj (evalStaging sel_stg_marker_abundance []) ["sample_id"]) ∧
    runProvisioner (runProvisioner (fun _ => none) (fun _ => [])) (fun _ => [])
        (qualifyName "src_marker_abundance") =
      some (.viewObj (fmtQuery q_src_marker_abundance)) :=
  ⟨(spec_C2_idempotent_rerun (fun _ => none) (fun _ => [])).1,
   (spec_C2_idempotent_rerun (fun _ => none) (fun _ => [])).2.1 _
     (List.mem_cons_self _ _),
   (spec_C2_idempotent_rerun (fun _ => none) (fun _ => [])).2.2
     (fun _ _ => rfl) _ (List.mem_cons_self _ _)⟩

/-- A catalog in which the first source view already exists with a stale
body. -/
def staleCatalog : Catalog :=
  fun k => if k = qualifyName "src_marker_abundance" then
    some (.viewObj "SELECT 1") else none

set_option maxRecDepth 16384 in
/-- C2 counterexample: view bodies are NOT "fully replaced on re-run" —
`create_table(view, exists_ok=True)` leaves an existing object untouched, so
when a view named src_marker_abundance already exists with a different body,
even two full provisioner runs with unchanged definitions leave that stale
body in place, and it differs from the definition's query. -/
theorem spec_C2_counterexample :
    runProvisioner (runProvisioner staleCatalog (fun _ => [])) (fun _ => [])
        (qualifyName "src_marker_abundance") = some (.viewObj "SELECT 1") ∧
    "SELECT 1" ≠ fmtQuery q_src_marker_abundance := by
  constructor
  · decide
  · decide

end ETL
